import Mathlib

/-!
Shallow embedding of `packages/aws-appsync/src/link/offline-link.js`:
the offline operation interceptor (`OfflineLink.request`,
`processOfflineQuery`, `processMutation`), the replay entry point
(`offlineEffect`) and the conflict-resolution discard predicate
(`discard`).  JavaScript values that the code inspects dynamically are
modelled by the inductive type `RVal`; fields that may be absent
(`undefined`) are modelled with `Option`; a thrown `TypeError` is
modelled with `Except`.
-/

set_option autoImplicit false

namespace OfflineAppSync

/-- Model of a dynamically typed JavaScript value, as far as the code
under study inspects values: `undefined`, `null`, booleans, numbers,
strings and plain objects (field lists). -/
inductive RVal where
  | undefinedV : RVal
  | nullV : RVal
  | boolV : Bool → RVal
  | numV : Int → RVal
  | strV : String → RVal
  | objV : List (String × RVal) → RVal

/-- JavaScript truthiness of an `RVal` (`if (x)`, `!!x`). -/
def truthy : RVal → Bool
  | .undefinedV => false
  | .nullV => false
  | .boolV b => b
  | .numV n => n != 0
  | .strV s => s != ""
  | .objV _ => true

/-- JavaScript strict equality `x === "lit"` against a string literal:
true only when `x` is a string with the same characters. -/
def jsEqString : RVal → String → Bool
  | .strV s, t => s == t
  | _, _ => false

/-- The object-spread expression `{ ...x }`: copies the own fields of an
object, enumerates the characters of a string, and yields the empty
object for every other value.  The result is always an object. -/
def spreadObj : RVal → RVal
  | .objV fields => .objV fields
  | .strV s => .objV (s.toList.enum.map fun p => (toString p.1, .strV (String.mk [p.2])))
  | _ => .objV []

/-- A spread copy is an object, hence truthy. -/
theorem truthy_spreadObj (v : RVal) : truthy (spreadObj v) = true := by
  cases v <;> rfl

/-- A GraphQL document, abstracted to what `getOperationName` and
`getOperationDefinition` extract from it: the (optional) operation name
and the operation type string (`query`, `mutation`, `subscription`). -/
structure Doc where
  name : Option String
  operationType : String

/-- The operation definition node returned by `getOperationDefinition`,
restricted to its `operation` field, the only one the code reads. -/
structure OperationDefinition where
  operation : String

/-- `getOperationDefinition(doc)` from `apollo-utilities`. -/
def getOperationDefinition (d : Doc) : OperationDefinition :=
  { operation := d.operationType }

/-- `getOperationName(doc)` from `apollo-utilities`. -/
def getOperationName (d : Doc) : Option String :=
  d.name

/-- One entry of a `graphQLErrors` array: `errorType` may be absent
(`none` models `undefined`); `data` and `path` are arbitrary values. -/
structure GQLError where
  errorType : Option String
  data : RVal
  path : RVal

/-- The `networkError` object: its `graphQLErrors` field may be absent,
which is what lets `discard` crash (claim C10). -/
structure NetworkError where
  graphQLErrors : Option (List GQLError)

/-- The error argument handed to the discard predicate.  `graphQLErrors`
and `networkError` may each be absent; `permanent` absent is modelled as
`false` (absent is falsy, and the code only tests truthiness). -/
structure ErrObj where
  graphQLErrors : Option (List GQLError)
  networkError : Option NetworkError
  permanent : Bool

/-- The effect stored inside an enqueued action
(`action.meta.offline.effect`). -/
structure Effect where
  mutation : Doc
  vars : RVal
  refetchQueries : RVal
  doIt : Bool

/-- A commit or rollback descriptor (`{ type: ..., meta: null }`); only
the `type` string is significant. -/
structure CommitAction where
  type : String

/-- The `offline` part of a queue action: effect plus commit and
rollback descriptors. -/
structure OfflineMeta where
  effect : Effect
  commit : CommitAction
  rollback : CommitAction

/-- The `meta` object of a queue action. -/
structure ActionMeta where
  offline : OfflineMeta

/-- The redux action dispatched by `processMutation` and later handed
back to `discard` by the offline queue. -/
structure QueueAction where
  type : String
  payload : RVal
  meta : ActionMeta

/-- The argument object the discard predicate passes to the user conflict
resolver. -/
structure ResolverArgs where
  mutation : Doc
  mutationName : Option String
  operationType : String
  vars : RVal
  data : RVal
  retries : Nat

/-- Outcome of invoking the user conflict resolver: it either throws or
returns a value. -/
inductive ResolverOutcome where
  | throws : ResolverOutcome
  | returns : RVal → ResolverOutcome

/-- A user conflict resolver, as invoked by `discard`. -/
abbrev Resolver := ResolverArgs → ResolverOutcome

/-- The default conflict resolver `() => null` used when none is
supplied to the `discard` factory. -/
def defaultResolver : Resolver := fun _ => .returns .nullV

/-- A runtime `TypeError` escaping the discard predicate (calling `.find`
on `undefined`). -/
inductive DiscardError where
  | typeError : DiscardError

/-- The predicate of the first `find`: a conditional-check conflict entry
(`err.errorType === "DynamoDB:ConditionalCheckFailedException"`). -/
def isConditionalCheck (err : GQLError) : Bool :=
  err.errorType == some "DynamoDB:ConditionalCheckFailedException"

/-- The predicate of the second `find`:
`err.errorType && err.errorType.startsWith("AWSAppSyncClient:")`. -/
def isAppSyncClientError (err : GQLError) : Bool :=
  match err.errorType with
  | some t => t != "" && t.startsWith "AWSAppSyncClient:"
  | none => false

/-- The in-place update `action.meta.offline.effect.vars = v`. -/
def setEffectVariables (action : QueueAction) (v : RVal) : QueueAction :=
  { action with meta := { action.meta with offline := { action.meta.offline with
      effect := { action.meta.offline.effect with vars := v } } } }

/-- The destructuring
`const { networkError: { graphQLErrors } = { graphQLErrors: [] } } = error`:
the default object applies only when `networkError` itself is absent;
when `networkError` is present the inner field is read as-is and may be
absent (`none` models the resulting `undefined`). -/
def networkGraphQLErrors (error : ErrObj) : Option (List GQLError) :=
  match error.networkError with
  | none => some []
  | some ne => ne.graphQLErrors

/-- The argument object built for the user resolver inside the
conditional-check branch of `discard`. -/
def resolverInput (action : QueueAction) (conditionalCheck : GQLError)
    (retries : Nat) : ResolverArgs :=
  { mutation := action.meta.offline.effect.mutation
  , mutationName := getOperationName action.meta.offline.effect.mutation
  , operationType := (getOperationDefinition action.meta.offline.effect.mutation).operation
  , vars := action.meta.offline.effect.vars
  , data := conditionalCheck.data
  , retries := retries }

/-- The fall-through default rule `return error.permanent || retries > 10`. -/
def defaultDiscardRule (error : ErrObj) (retries : Nat) : Bool :=
  error.permanent || decide (retries > 10)

/-- `discard(fn)(error, action, retries)` from `offline-link.js`.  The
result pairs the returned boolean with the (possibly mutated) action;
`Except.error .typeError` models the uncaught `TypeError` raised when
`networkError` is present without a `graphQLErrors` field.  The resolver
argument is always a function here, so the `typeof fn === "function"`
test of the source is always true. -/
def discard (fn : Resolver) (error : ErrObj) (action : QueueAction)
    (retries : Nat) : Except DiscardError (Bool × QueueAction) :=
  let graphQLErrors := error.graphQLErrors.getD []
  match graphQLErrors.find? isConditionalCheck with
  | some conditionalCheck =>
      match fn (resolverInput action conditionalCheck retries) with
      | .throws => .ok (true, action)
      | .returns conflictResolutionResult =>
          if jsEqString conflictResolutionResult "DISCARD" then
            .ok (true, action)
          else if truthy conflictResolutionResult then
            .ok (false, setEffectVariables action conflictResolutionResult)
          else
            .ok (defaultDiscardRule error retries, action)
  | none =>
      if graphQLErrors.length != 0 then
        .ok (true, action)
      else
        match networkGraphQLErrors error with
        | none => .error .typeError
        | some netErrors =>
            if (netErrors.find? isAppSyncClientError).isSome then
              .ok (true, action)
            else
              .ok (defaultDiscardRule error retries, action)

/-- The `optimisticResponse` context entry: either a plain value (with
`.val .undefinedV` standing for an absent entry) or a function of the
variables. -/
inductive OptimisticResponse where
  | val : RVal → OptimisticResponse
  | fn : (RVal → RVal) → OptimisticResponse

/-- JavaScript truthiness of the `optimisticResponse` entry: a function
is truthy; a plain value is truthy according to `truthy`. -/
def truthyOptimistic : OptimisticResponse → Bool
  | .val v => truthy v
  | .fn _ => true

/-- The `AASContext` object destructured by `processMutation` from
`operation.getContext()`.  The source field named `variables` is called
`vars` here because `variables` is reserved in Lean. -/
structure AASContext where
  mutation : Doc
  vars : RVal
  optimisticResponse : OptimisticResponse
  refetchQueries : RVal
  doIt : Bool

/-- A GraphQL operation as the interceptor sees it: the document, the
variable bindings, and the `AASContext` entry of its context bag. -/
structure Operation where
  query : Doc
  vars : RVal
  aasContext : AASContext

/-- The normalized cache snapshot (`state[NORMALIZED_CACHE_KEY]`),
abstracted to a key-value list; its internals are only ever passed to
the external `readQueryFromStore`. -/
abbrev NormalizedCache := List (String × RVal)

/-- The `offline` slice of the redux state; only `online` is read. -/
structure OfflineState where
  online : Bool

/-- The redux store state read by the interceptor: the connectivity flag
`offline.online` and the (possibly absent) normalized cache stored under
`NORMALIZED_CACHE_KEY`, whose value is `"appsync"` in this package. -/
structure StoreState where
  offline : OfflineState
  appsync : Option NormalizedCache

/-- `processOfflineQuery(operation, theStore)`.  The external composite
`readQueryFromStore({ store: defaultNormalizedCacheFactory(nc), query,
variables })` is abstracted as the parameter `readQueryFromStore`, a
pure projection of the cache, query and variables; the destructuring
default `normalizedCache = {}` is the `getD []`. -/
def processOfflineQuery (readQueryFromStore : NormalizedCache → Doc → RVal → RVal)
    (operation : Operation) (theStore : StoreState) : RVal :=
  let normalizedCache := theStore.appsync.getD []
  readQueryFromStore normalizedCache operation.query operation.vars

/-- The conditional expression computing the optimistic `data` in
`processMutation`: `null` (here `none`) when `optimisticResponse` is
falsy, the spread copy of `optimisticResponse(variables)` when it is a
function, and the value itself otherwise. -/
def computeOptimisticData (optimisticResponse : OptimisticResponse)
    (vars : RVal) : Option RVal :=
  if truthyOptimistic optimisticResponse then
    match optimisticResponse with
    | .fn f => some (spreadObj (f vars))
    | .val v => some v
  else none

/-- The action object dispatched by `processMutation`: note the effect is
enqueued with `doIt: true`. -/
def enqueueAction (ctx : AASContext) : QueueAction :=
  { type := "SOME_ACTION"
  , payload := .objV []
  , meta := { offline :=
      { effect := { mutation := ctx.mutation, vars := ctx.vars,
                    refetchQueries := ctx.refetchQueries, doIt := true }
      , commit := { type := "SOME_ACTION_COMMIT" }
      , rollback := { type := "SOME_ACTION_ROLLBACK" } } } }

/-- `processMutation(operation, theStore)`: returns the optimistic data
(`none` models both `undefined` on the replay path and `null` for a
falsy `optimisticResponse`, the two values `if (data)` treats alike)
together with the list of actions dispatched to the store during the
call. -/
def processMutation (operation : Operation) : Option RVal × List QueueAction :=
  let ctx := operation.aasContext
  if ctx.doIt then
    (none, [])
  else
    (computeOptimisticData ctx.optimisticResponse ctx.vars, [enqueueAction ctx])

/-- One event of an observable stream (`next` / `error` / `complete`). -/
inductive Event where
  | next : RVal → Event
  | errorE : RVal → Event
  | complete : Event

/-- The observable behaviour of one `request` call: the events emitted to
the observer, the actions dispatched to the store, and how many times
`forward` was subscribed. -/
structure RequestOutcome where
  events : List Event
  dispatches : List QueueAction
  forwardCalls : Nat

/-- The `{ data }` result object passed to `observer.next`. -/
def wrapData (d : RVal) : RVal := .objV [("data", d)]

/-- `OfflineLink.request(operation, forward)`.  The downstream transport
is abstracted by `forwardEvents`, the event sequence its observable
produces when subscribed; on the pass-through path those events are
relayed verbatim (`next`/`error`/`complete` are bound one-to-one). -/
def request (readQueryFromStore : NormalizedCache → Doc → RVal → RVal)
    (state : StoreState) (operation : Operation)
    (forwardEvents : List Event) : RequestOutcome :=
  let online := state.offline.online
  let operationType := (getOperationDefinition operation.query).operation
  let isMutation := operationType == "mutation"
  let isQuery := operationType == "query"
  if !online && isQuery then
    let data := processOfflineQuery readQueryFromStore operation state
    { events := [.next (wrapData data), .complete], dispatches := [], forwardCalls := 0 }
  else if isMutation then
    match processMutation operation with
    | (some data, dispatched) =>
        { events := [.next (wrapData data), .complete], dispatches := dispatched,
          forwardCalls := 0 }
    | (none, dispatched) =>
        { events := forwardEvents, dispatches := dispatched, forwardCalls := 1 }
  else
    { events := forwardEvents, dispatches := [], forwardCalls := 1 }

/-- The context object `{ AASContext: { doIt } }` built by
`offlineEffect` for the replayed mutation. -/
structure ReplayAASContext where
  doIt : Bool

/-- The `context` field of the replay mutate options. -/
structure ReplayContext where
  aasContext : ReplayAASContext

/-- The options object handed to `client.mutate` by `offlineEffect`. -/
structure MutateOptions where
  mutation : Doc
  vars : RVal
  refetchQueries : RVal
  context : ReplayContext

/-- `offlineEffect(client, effect, action)`, restricted to the options
object it builds and hands to the external `client.mutate`: the queued
effect fields are copied and the effect flag `doIt` is forwarded
unchanged into the replay context.  (`action.type` is read by the source
but unused; `client` is external.) -/
def offlineEffect (effect : Effect) : MutateOptions :=
  { mutation := effect.mutation
  , vars := effect.vars
  , refetchQueries := effect.refetchQueries
  , context := { aasContext := { doIt := effect.doIt } } }

/-- The static value case of the optimistic data, and the spread copy of
the function result: the value `processMutation` emits when the
`optimisticResponse` entry is truthy. -/
def optimisticValue : OptimisticResponse → RVal → RVal
  | .val v, _ => v
  | .fn f, vars => spreadObj (f vars)

/-- When the `optimisticResponse` entry is truthy, the computed data is
exactly `optimisticValue`. -/
theorem computeOptimisticData_of_truthy (o : OptimisticResponse) (v : RVal)
    (h : truthyOptimistic o = true) :
    computeOptimisticData o v = some (optimisticValue o v) := by
  cases o <;> simp [computeOptimisticData, optimisticValue, h]

/- Concrete inputs shared by witnesses and counterexamples. -/

/-- A concrete mutation document. -/
def mDoc : Doc := { name := some "AddTodo", operationType := "mutation" }

/-- A concrete query document. -/
def qDoc : Doc := { name := some "ListTodos", operationType := "query" }

/-- Concrete variable bindings. -/
def sampleVars : RVal := .objV [("id", .numV 1)]

/-- A concrete queued action, shaped like the output of
`processMutation`. -/
def sampleAction : QueueAction :=
  { type := "SOME_ACTION"
  , payload := .objV []
  , meta := { offline :=
      { effect := { mutation := mDoc, vars := sampleVars,
                    refetchQueries := .undefinedV, doIt := true }
      , commit := { type := "SOME_ACTION_COMMIT" }
      , rollback := { type := "SOME_ACTION_ROLLBACK" } } } }

/-- A concrete conditional-check conflict entry. -/
def condErr : GQLError :=
  { errorType := some "DynamoDB:ConditionalCheckFailedException"
  , data := .objV [("v", .numV 1)]
  , path := .objV [("0", .strV "x")] }

/-- A concrete error carrying only the conditional-check entry. -/
def condError : ErrObj :=
  { graphQLErrors := some [condErr], networkError := none, permanent := false }

/-- A concrete transient error: no GraphQL errors, no network error, not
permanent. -/
def transientError : ErrObj :=
  { graphQLErrors := some [], networkError := none, permanent := false }

/-- Claim C4: for an error whose `graphQLErrors` list is empty, whose
network-level error list (as the destructuring reads it) exists and
holds no `AWSAppSyncClient:`-prefixed entry, and whose `permanent` flag
is false, the discard predicate returns `false` for every retry count up
to 10 and `true` for every retry count above 10, leaving the action
unchanged. -/
theorem discard_retry_ceiling (fn : Resolver) (error : ErrObj)
    (action : QueueAction) (netErrors : List GQLError) (retries : Nat)
    (hg : error.graphQLErrors.getD [] = [])
    (hn : networkGraphQLErrors error = some netErrors)
    (hna : netErrors.find? isAppSyncClientError = none)
    (hp : error.permanent = false) :
    (retries ≤ 10 → discard fn error action retries = .ok (false, action)) ∧
    (retries > 10 → discard fn error action retries = .ok (true, action)) := by
  have hbase : discard fn error action retries =
      .ok (defaultDiscardRule error retries, action) := by
    simp [discard, hg, hn, hna]
  constructor
  · intro hle
    rw [hbase]
    have : decide (retries > 10) = false := by
      simp [Nat.not_lt.mpr hle]
    simp [defaultDiscardRule, hp, this]
  · intro hgt
    rw [hbase]
    have : decide (retries > 10) = true := by
      simpa using hgt
    simp [defaultDiscardRule, hp, this]

/-- Witness for C4: the transient error at retry counts 3 and 11. -/
theorem discard_retry_ceiling_witness :
    transientError.graphQLErrors.getD [] = [] ∧
    networkGraphQLErrors transientError = some [] ∧
    List.find? isAppSyncClientError [] = none ∧
    transientError.permanent = false ∧
    discard defaultResolver transientError sampleAction 3 = .ok (false, sampleAction) ∧
    discard defaultResolver transientError sampleAction 11 = .ok (true, sampleAction) :=
  ⟨rfl, rfl, rfl, rfl,
    (discard_retry_ceiling defaultResolver transientError sampleAction [] 3
      rfl rfl rfl rfl).1 (by decide),
    (discard_retry_ceiling defaultResolver transientError sampleAction [] 11
      rfl rfl rfl rfl).2 (by decide)⟩

/-- Claim C5: when the error list holds a conditional-check entry and the
user resolver returns a truthy value other than the string `DISCARD`,
the discard predicate overwrites the queued effect variables with that
value and returns `false`. -/
theorem discard_conflict_new_variables (fn : Resolver) (error : ErrObj)
    (action : QueueAction) (retries : Nat) (cc : GQLError) (r : RVal)
    (hcc : (error.graphQLErrors.getD []).find? isConditionalCheck = some cc)
    (hfn : fn (resolverInput action cc retries) = .returns r)
    (hnd : jsEqString r "DISCARD" = false)
    (ht : truthy r = true) :
    discard fn error action retries = .ok (false, setEffectVariables action r) ∧
    (setEffectVariables action r).meta.offline.effect.vars = r := by
  constructor
  · simp [discard, hcc, hfn, hnd, ht]
  · rfl

/-- Witness for C5: a resolver returning the replacement variables
`{ v: 2 }` against the concrete conditional-check error. -/
theorem discard_conflict_new_variables_witness :
    (condError.graphQLErrors.getD []).find? isConditionalCheck = some condErr ∧
    (fun _ => ResolverOutcome.returns (.objV [("v", .numV 2)]) : Resolver)
        (resolverInput sampleAction condErr 1) = .returns (.objV [("v", .numV 2)]) ∧
    jsEqString (.objV [("v", .numV 2)]) "DISCARD" = false ∧
    truthy (.objV [("v", .numV 2)]) = true ∧
    (discard (fun _ => .returns (.objV [("v", .numV 2)])) condError sampleAction 1 =
        .ok (false, setEffectVariables sampleAction (.objV [("v", .numV 2)])) ∧
      (setEffectVariables sampleAction (.objV [("v", .numV 2)])).meta.offline.effect.vars =
        .objV [("v", .numV 2)]) :=
  ⟨rfl, rfl, rfl, rfl,
    discard_conflict_new_variables (fun _ => .returns (.objV [("v", .numV 2)]))
      condError sampleAction 1 condErr (.objV [("v", .numV 2)]) rfl rfl rfl rfl⟩

/-- Claim C6: when the error list holds a conditional-check entry and the
user resolver throws, the discard predicate returns `true` with the
action unchanged; the exception never escapes (the result is `.ok`, not
an error). -/
theorem discard_resolver_throw (fn : Resolver) (error : ErrObj)
    (action : QueueAction) (retries : Nat) (cc : GQLError)
    (hcc : (error.graphQLErrors.getD []).find? isConditionalCheck = some cc)
    (hfn : fn (resolverInput action cc retries) = .throws) :
    discard fn error action retries = .ok (true, action) := by
  simp [discard, hcc, hfn]

/-- Witness for C6: a throwing resolver against the concrete
conditional-check error. -/
theorem discard_resolver_throw_witness :
    (condError.graphQLErrors.getD []).find? isConditionalCheck = some condErr ∧
    (fun _ => ResolverOutcome.throws : Resolver)
        (resolverInput sampleAction condErr 2) = .throws ∧
    discard (fun _ => .throws) condError sampleAction 2 = .ok (true, sampleAction) :=
  ⟨rfl, rfl,
    discard_resolver_throw (fun _ => .throws) condError sampleAction 2 condErr rfl rfl⟩

/-- Claim C9: with the user resolver fixed, the discard predicate is
deterministic — structurally equal inputs yield the same decision and
the same (possibly mutated) action.  The embedded `discard` reads
nothing but its arguments, matching the source, which consults no
external state. -/
theorem discard_deterministic (fn : Resolver) (e1 e2 : ErrObj)
    (a1 a2 : QueueAction) (n1 n2 : Nat)
    (he : e1 = e2) (ha : a1 = a2) (hn : n1 = n2) :
    discard fn e1 a1 n1 = discard fn e2 a2 n2 := by
  subst he; subst ha; subst hn; rfl

/-- Witness for C9: two runs on the concrete conditional-check error. -/
theorem discard_deterministic_witness :
    condError = condError ∧ sampleAction = sampleAction ∧ (4 : Nat) = 4 ∧
    discard defaultResolver condError sampleAction 4 =
      discard defaultResolver condError sampleAction 4 :=
  ⟨rfl, rfl, rfl,
    discard_deterministic defaultResolver condError condError
      sampleAction sampleAction 4 4 rfl rfl rfl⟩

/-- A concrete error whose `graphQLErrors` list is empty and whose
`networkError` object is present but has no `graphQLErrors` field. -/
def danglingNetworkError : ErrObj :=
  { graphQLErrors := some []
  , networkError := some { graphQLErrors := none }
  , permanent := false }

/-- Claim C10: on an error with an empty `graphQLErrors` list and a
`networkError` object lacking a `graphQLErrors` field, the discard
predicate raises a `TypeError` (calling `.find` on `undefined`) instead
of returning a boolean, because the destructuring default
`{ graphQLErrors: [] }` applies only when `networkError` itself is
absent.  This holds for every resolver, action and retry count. -/
theorem discard_typeError_on_dangling_networkError (fn : Resolver)
    (action : QueueAction) (retries : Nat) :
    discard fn danglingNetworkError action retries = .error .typeError := rfl

/- Interceptor claims. -/

/-- A concrete abstract cache projection standing for
`readQueryFromStore`. -/
def sampleReadQuery : NormalizedCache → Doc → RVal → RVal :=
  fun nc q v => .objV [("cacheSize", .numV nc.length), ("op", .strV q.operationType), ("vars", v)]

/-- A concrete non-replay context without an optimistic response. -/
def plainContext : AASContext :=
  { mutation := mDoc, vars := sampleVars
  , optimisticResponse := .val .undefinedV
  , refetchQueries := .undefinedV, doIt := false }

/-- A concrete non-replay mutation operation without an optimistic
response. -/
def plainMutationOp : Operation :=
  { query := mDoc, vars := sampleVars, aasContext := plainContext }

/-- A concrete online store state. -/
def onlineState : StoreState :=
  { offline := { online := true }, appsync := none }

/-- A concrete offline store state with a one-entry normalized cache. -/
def offlineState : StoreState :=
  { offline := { online := false }, appsync := some [("ROOT_QUERY", .objV [])] }

/-- A concrete downstream event sequence. -/
def fwdEvents : List Event :=
  [.next (wrapData (.objV [("ok", .boolV true)])), .complete]

/-- Claim C7: an offline query never invokes the downstream transport,
dispatches nothing, and emits exactly one result — the projection of the
query and variables over the current normalized-cache snapshot — then
completes. -/
theorem request_offline_query (readQueryFromStore : NormalizedCache → Doc → RVal → RVal)
    (state : StoreState) (operation : Operation) (forwardEvents : List Event)
    (hoff : state.offline.online = false)
    (hq : (getOperationDefinition operation.query).operation = "query") :
    request readQueryFromStore state operation forwardEvents =
      { events := [.next (wrapData (readQueryFromStore (state.appsync.getD [])
                    operation.query operation.vars)), .complete]
      , dispatches := [], forwardCalls := 0 } := by
  simp [request, processOfflineQuery, hoff, hq]

/-- Witness for C7: a concrete query while offline. -/
theorem request_offline_query_witness :
    offlineState.offline.online = false ∧
    (getOperationDefinition qDoc).operation = "query" ∧
    request sampleReadQuery offlineState
        { query := qDoc, vars := sampleVars, aasContext := plainContext } fwdEvents =
      { events := [.next (wrapData (sampleReadQuery (offlineState.appsync.getD [])
                    qDoc sampleVars)), .complete]
      , dispatches := [], forwardCalls := 0 } :=
  ⟨rfl, rfl,
    request_offline_query sampleReadQuery offlineState
      { query := qDoc, vars := sampleVars, aasContext := plainContext } fwdEvents rfl rfl⟩

/-- Claim C2: a non-replay mutation whose `optimisticResponse` entry is
declared (a function, or a static value that is truthy — the source
tests JavaScript truthiness) emits exactly one result, the optimistic
value, then completes, and never invokes the downstream transport. -/
theorem request_optimistic_exactly_once
    (readQueryFromStore : NormalizedCache → Doc → RVal → RVal)
    (state : StoreState) (operation : Operation) (forwardEvents : List Event)
    (hm : (getOperationDefinition operation.query).operation = "mutation")
    (hd : operation.aasContext.doIt = false)
    (ho : truthyOptimistic operation.aasContext.optimisticResponse = true) :
    (request readQueryFromStore state operation forwardEvents).events =
      [.next (wrapData (optimisticValue operation.aasContext.optimisticResponse
          operation.aasContext.vars)), .complete] ∧
    (request readQueryFromStore state operation forwardEvents).forwardCalls = 0 := by
  have hc := computeOptimisticData_of_truthy operation.aasContext.optimisticResponse
    operation.aasContext.vars ho
  constructor <;> simp [request, processMutation, hm, hd, hc]

/-- A concrete static optimistic response object. -/
def sampleOptimistic : RVal := .objV [("addTodo", .objV [("id", .numV 1)])]

/-- A concrete non-replay mutation operation declaring a static
optimistic response. -/
def optimisticOp : Operation :=
  { query := mDoc, vars := sampleVars
  , aasContext := { plainContext with optimisticResponse := .val sampleOptimistic } }

/-- Witness for C2: the concrete optimistic mutation while online. -/
theorem request_optimistic_exactly_once_witness :
    (getOperationDefinition optimisticOp.query).operation = "mutation" ∧
    optimisticOp.aasContext.doIt = false ∧
    truthyOptimistic optimisticOp.aasContext.optimisticResponse = true ∧
    ((request sampleReadQuery onlineState optimisticOp fwdEvents).events =
        [.next (wrapData (optimisticValue optimisticOp.aasContext.optimisticResponse
            optimisticOp.aasContext.vars)), .complete] ∧
      (request sampleReadQuery onlineState optimisticOp fwdEvents).forwardCalls = 0) :=
  ⟨rfl, rfl, rfl,
    request_optimistic_exactly_once sampleReadQuery onlineState optimisticOp fwdEvents
      rfl rfl rfl⟩

/-- Claim C3: a non-replay mutation with no `optimisticResponse` entry
dispatches exactly one enqueue action and, in the same call, still
forwards the operation downstream, relaying the transport events
verbatim. -/
theorem request_enqueue_and_forward
    (readQueryFromStore : NormalizedCache → Doc → RVal → RVal)
    (state : StoreState) (operation : Operation) (forwardEvents : List Event)
    (hm : (getOperationDefinition operation.query).operation = "mutation")
    (hd : operation.aasContext.doIt = false)
    (ho : operation.aasContext.optimisticResponse = .val .undefinedV) :
    (request readQueryFromStore state operation forwardEvents).dispatches =
      [enqueueAction operation.aasContext] ∧
    (request readQueryFromStore state operation forwardEvents).forwardCalls = 1 ∧
    (request readQueryFromStore state operation forwardEvents).events = forwardEvents := by
  refine ⟨?_, ?_, ?_⟩ <;>
    simp [request, processMutation, computeOptimisticData, truthyOptimistic, truthy,
      hm, hd, ho]

/-- Witness for C3: the concrete plain mutation while online. -/
theorem request_enqueue_and_forward_witness :
    (getOperationDefinition plainMutationOp.query).operation = "mutation" ∧
    plainMutationOp.aasContext.doIt = false ∧
    plainMutationOp.aasContext.optimisticResponse = .val .undefinedV ∧
    ((request sampleReadQuery onlineState plainMutationOp fwdEvents).dispatches =
        [enqueueAction plainMutationOp.aasContext] ∧
      (request sampleReadQuery onlineState plainMutationOp fwdEvents).forwardCalls = 1 ∧
      (request sampleReadQuery onlineState plainMutationOp fwdEvents).events = fwdEvents) :=
  ⟨rfl, rfl, rfl,
    request_enqueue_and_forward sampleReadQuery onlineState plainMutationOp fwdEvents
      rfl rfl rfl⟩

/-- Claim C8: a replay mutation (`doIt` true in the context) dispatches
nothing, emits no optimistic result, and is forwarded downstream exactly
once, its events relayed verbatim. -/
theorem request_replay_passthrough
    (readQueryFromStore : NormalizedCache → Doc → RVal → RVal)
    (state : StoreState) (operation : Operation) (forwardEvents : List Event)
    (hm : (getOperationDefinition operation.query).operation = "mutation")
    (hd : operation.aasContext.doIt = true) :
    request readQueryFromStore state operation forwardEvents =
      { events := forwardEvents, dispatches := [], forwardCalls := 1 } := by
  simp [request, processMutation, hm, hd]

/-- A concrete replay mutation operation. -/
def replayOp : Operation :=
  { query := mDoc, vars := sampleVars
  , aasContext := { plainContext with doIt := true } }

/-- Witness for C8: the concrete replay mutation while online. -/
theorem request_replay_passthrough_witness :
    (getOperationDefinition replayOp.query).operation = "mutation" ∧
    replayOp.aasContext.doIt = true ∧
    request sampleReadQuery onlineState replayOp fwdEvents =
      { events := fwdEvents, dispatches := [], forwardCalls := 1 } :=
  ⟨rfl, rfl,
    request_replay_passthrough sampleReadQuery onlineState replayOp fwdEvents rfl rfl⟩

/-- Counterexample to C1 as stated: for a concrete non-replay mutation,
the single dispatched enqueue action carries an effect whose `doIt`
field is `true`, not `false` — the source enqueues with `doIt: true`
(offline-link.js line 115). -/
theorem enqueue_doIt_counterexample :
    ((request sampleReadQuery onlineState plainMutationOp fwdEvents).dispatches.map
        fun a => a.meta.offline.effect.doIt) = [true] ∧
    ¬ (((request sampleReadQuery onlineState plainMutationOp fwdEvents).dispatches.map
        fun a => a.meta.offline.effect.doIt) = [false]) := by
  have h1 : ((request sampleReadQuery onlineState plainMutationOp fwdEvents).dispatches.map
      fun a => a.meta.offline.effect.doIt) = [true] := rfl
  refine ⟨h1, fun h => ?_⟩
  rw [h1] at h
  exact absurd h (by decide)

/-- Amended C1: every enqueue action dispatched for a non-replay mutation
carries an effect whose `doIt` flag is already `true` at enqueue time,
and `offlineEffect` hands that flag unchanged to the replay context (so
the replayed mutation short-circuits `processMutation`). -/
theorem enqueue_doIt_true
    (readQueryFromStore : NormalizedCache → Doc → RVal → RVal)
    (state : StoreState) (operation : Operation) (forwardEvents : List Event)
    (hm : (getOperationDefinition operation.query).operation = "mutation")
    (hd : operation.aasContext.doIt = false) :
    ((request readQueryFromStore state operation forwardEvents).dispatches.map
        fun a => a.meta.offline.effect.doIt) = [true] ∧
    ∀ effect : Effect, (offlineEffect effect).context.aasContext.doIt = effect.doIt := by
  refine ⟨?_, fun _ => rfl⟩
  cases hdata : computeOptimisticData operation.aasContext.optimisticResponse
      operation.aasContext.vars <;>
    simp [request, processMutation, enqueueAction, hm, hd, hdata]

/-- Witness for the amended C1: the concrete plain mutation while
online. -/
theorem enqueue_doIt_true_witness :
    (getOperationDefinition plainMutationOp.query).operation = "mutation" ∧
    plainMutationOp.aasContext.doIt = false ∧
    (((request sampleReadQuery onlineState plainMutationOp fwdEvents).dispatches.map
        fun a => a.meta.offline.effect.doIt) = [true] ∧
      ∀ effect : Effect, (offlineEffect effect).context.aasContext.doIt = effect.doIt) :=
  ⟨rfl, rfl,
    enqueue_doIt_true sampleReadQuery onlineState plainMutationOp fwdEvents rfl rfl⟩

end OfflineAppSync
